import Mathlib

/-!
Shallow embedding of the asg-rolling-upgrade script (src/script.py).

Python values that may be absent are modelled with `Option`:
for attributes and dict entries, `none` means the attribute or key is
entirely absent (a lookup raises), `some none` means it is present with
value `None`, and `some (some s)` means it is present with string value `s`.
Python exceptions are modelled with `Except`.
-/

/-- Python exceptions raised by the comparator: a raw dict `KeyError`
and the `AttributeError` raised either by `getattr` on a missing instance
attribute or explicitly by `check_attr` for a missing launch-config key. -/
inductive PyError where
  | keyError (key : String)
  | attributeError (msg : String)
deriving DecidableEq, Repr

/-- One entry of `instance.security_groups`: a dict carrying a `GroupId`. -/
structure SecurityGroup where
  groupId : String
deriving DecidableEq, Repr

/-- The EC2 instance snapshot as read by `compare_to_config`.  String
attributes are `Option (Option String)`: `none` = attribute absent
(`getattr` raises `AttributeError`), `some none` = `None`,
`some (some s)` = value `s`. -/
structure Ec2Instance where
  security_groups : List SecurityGroup
  image_id : Option (Option String)
  instance_type : Option (Option String)
  kernel_id : Option (Option String)
  key_name : Option (Option String)
  iam_instance_profile : Option (Option String)
deriving DecidableEq, Repr

/-- The launch-configuration dict as read by `compare_to_config`.
Outer `none` on a field means the dict key is absent. -/
structure LaunchConfig where
  userData : Option String
  securityGroups : Option (List String)
  imageId : Option (Option String)
  instanceType : Option (Option String)
  kernelId : Option (Option String)
  keyName : Option (Option String)
  iamInstanceProfile : Option (Option String)
deriving DecidableEq, Repr

/-- Lexicographic comparison of character lists by code point, the order
Python `sorted` uses on strings. -/
def charListLe : List Char → List Char → Bool
  | [], _ => true
  | _ :: _, [] => false
  | a :: as, b :: bs =>
      if a < b then true
      else if b < a then false
      else charListLe as bs

/-- Lexicographic string comparison by code point. -/
def strLe (a b : String) : Bool := charListLe a.data b.data

/-- The relation form of `strLe`, decidable, for use with `List.insertionSort`. -/
def strLeRel (a b : String) : Prop := strLe a b = true

instance : DecidableRel strLeRel := fun a b => Bool.decEq (strLe a b) true

theorem charListLe_total (a b : List Char) :
    charListLe a b = true ∨ charListLe b a = true := by
  induction a generalizing b with
  | nil => left; rfl
  | cons x xs ih =>
    cases b with
    | nil => right; rfl
    | cons y ys =>
      by_cases hxy : x < y
      · left; simp [charListLe, hxy]
      · by_cases hyx : y < x
        · right; simp [charListLe, hyx, hxy]
        · rcases ih ys with h | h <;> simp [charListLe, hxy, hyx, h]

theorem charListLe_trans (a b c : List Char)
    (hab : charListLe a b = true) (hbc : charListLe b c = true) :
    charListLe a c = true := by
  induction a generalizing b c with
  | nil => rfl
  | cons x xs ih =>
    cases b with
    | nil => simp [charListLe] at hab
    | cons y ys =>
      cases c with
      | nil => simp [charListLe] at hbc
      | cons z zs =>
        by_cases hxy : x < y
        · by_cases hyz : y < z
          · simp [charListLe, lt_trans hxy hyz]
          · by_cases hzy : z < y
            · simp [charListLe, hyz, hzy] at hbc
            · have hyz' : y = z := le_antisymm (le_of_not_lt hzy) (le_of_not_lt hyz)
              simp [charListLe, hyz' ▸ hxy]
        · by_cases hyx : y < x
          · simp [charListLe, hxy, hyx] at hab
          · have hxy' : x = y := le_antisymm (le_of_not_lt hyx) (le_of_not_lt hxy)
            subst hxy'
            by_cases hyz : x < z
            · simp [charListLe, hyz]
            · by_cases hzy : z < x
              · simp [charListLe, hyz, hzy] at hbc
              · simp [charListLe, hxy, hyx] at hab
                simp [charListLe, hyz, hzy] at hbc
                simp [charListLe, hyz, hzy, ih ys zs hab hbc]

theorem charListLe_antisymm (a b : List Char)
    (hab : charListLe a b = true) (hba : charListLe b a = true) : a = b := by
  induction a generalizing b with
  | nil =>
    cases b with
    | nil => rfl
    | cons y ys => simp [charListLe] at hba
  | cons x xs ih =>
    cases b with
    | nil => simp [charListLe] at hab
    | cons y ys =>
      by_cases hxy : x < y
      · simp [charListLe, hxy, lt_asymm hxy] at hba
      · by_cases hyx : y < x
        · simp [charListLe, hxy, hyx] at hab
        · have hxy' : x = y := le_antisymm (le_of_not_lt hyx) (le_of_not_lt hxy)
          simp [charListLe, hxy, hyx] at hab
          simp [charListLe, hxy', lt_irrefl] at hba
          exact hxy' ▸ (ih ys hab (by simpa [charListLe, hxy'.symm ▸ hxy, hxy'.symm ▸ hyx] using hba)) ▸ rfl

instance : IsTotal String strLeRel :=
  ⟨fun a b => charListLe_total a.data b.data⟩

instance : IsTrans String strLeRel :=
  ⟨fun a b c => charListLe_trans a.data b.data c.data⟩

instance : IsAntisymm String strLeRel :=
  ⟨fun a b hab hba => by
    cases a; cases b; exact congrArg String.mk (charListLe_antisymm _ _ hab hba)⟩

/-- Python `sorted` on a list of strings. -/
def sortStr (l : List String) : List String :=
  List.insertionSort strLeRel l

/-- Sorting a permuted list gives the same sorted list. -/
theorem sortStr_eq_of_perm {l1 l2 : List String} (h : l1.Perm l2) :
    sortStr l1 = sortStr l2 :=
  List.eq_of_perm_of_sorted
    ((List.perm_insertionSort _ l1).trans (h.trans (List.perm_insertionSort _ l2).symm))
    (List.sorted_insertionSort _ l1) (List.sorted_insertionSort _ l2)

/-- Python `getattr(instance, name)` restricted to the attributes the
comparator reads; yields `none` when the attribute is absent, in which
case the caller raises `AttributeError`. -/
def getattrOpt (inst : Ec2Instance) (name : String) : Option (Option String) :=
  if name = "image_id" then inst.image_id
  else if name = "instance_type" then inst.instance_type
  else if name = "kernel_id" then inst.kernel_id
  else if name = "key_name" then inst.key_name
  else if name = "iam_instance_profile" then inst.iam_instance_profile
  else none

/-- Python `asg_launch_config[key]` restricted to the four required keys
`check_attr` is called with; `none` means the key is absent (`KeyError`). -/
def configGet (cfg : LaunchConfig) (key : String) : Option (Option String) :=
  if key = "ImageId" then cfg.imageId
  else if key = "InstanceType" then cfg.instanceType
  else if key = "KernelId" then cfg.kernelId
  else if key = "KeyName" then cfg.keyName
  else none

/-- Python `x or ""` applied to a lookup-with-default: absent or `None`
collapse to the empty string. -/
def pyStrOr : Option (Option String) → String
  | some (some s) => s
  | _ => ""

/-- The inner `check_attr` of `InstanceConfigComparator.compare_to_config`
(src/script.py lines 415-425).  Reads the instance attribute first
(`getattr` raises `AttributeError` when it is absent), then the config
key (`KeyError` is converted into the attribute-missing
`AttributeError`), normalises `None` to `""` on both sides, and emits
the config-key tag when the config value is non-empty and differs. -/
def check_attr (inst : Ec2Instance) (cfg : LaunchConfig)
    (instance_attr_name config_attr_name : String) : Except PyError (List String) :=
  match getattrOpt inst instance_attr_name with
  | none =>
      Except.error (PyError.attributeError
        ("object has no attribute " ++ instance_attr_name))
  | some iv =>
      match configGet cfg config_attr_name with
      | none =>
          Except.error (PyError.attributeError
            ("Launch configuration response was missing required attribute "
              ++ config_attr_name))
      | some cv =>
          let instance_attr := iv.getD ""
          let config_attr := cv.getD ""
          Except.ok (if config_attr ≠ "" ∧ instance_attr ≠ config_attr
                     then [config_attr_name] else [])

/-- The four `check_attr` calls of `compare_to_config`
(src/script.py lines 427-430), in source order. -/
def compare_attrs (inst : Ec2Instance) (cfg : LaunchConfig) :
    Except PyError (List String) :=
  match check_attr inst cfg "image_id" "ImageId" with
  | Except.error e => Except.error e
  | Except.ok c1 =>
    match check_attr inst cfg "instance_type" "InstanceType" with
    | Except.error e => Except.error e
    | Except.ok c2 =>
      match check_attr inst cfg "kernel_id" "KernelId" with
      | Except.error e => Except.error e
      | Except.ok c3 =>
        match check_attr inst cfg "key_name" "KeyName" with
        | Except.error e => Except.error e
        | Except.ok c4 => Except.ok (c1 ++ c2 ++ c3 ++ c4)

/-- The method `InstanceConfigComparator.compare_to_config` (src/script.py lines
371-440): user data, security groups (compared sorted), the four
required attributes, then the IAM instance profile. The raw dict reads
of `UserData` and `SecurityGroups` raise `KeyError` when the key is
absent. -/
def compare_to_config (inst : Ec2Instance) (asg_launch_config : LaunchConfig)
    (instance_userdata : String) : Except PyError (List String) :=
  match asg_launch_config.userData with
  | none => Except.error (PyError.keyError "UserData")
  | some config_userdata =>
    match asg_launch_config.securityGroups with
    | none => Except.error (PyError.keyError "SecurityGroups")
    | some config_security_groups =>
      let change_list_head :=
        (if instance_userdata ≠ config_userdata then ["UserData"] else []) ++
        (if sortStr (inst.security_groups.map SecurityGroup.groupId)
            ≠ sortStr config_security_groups
         then ["SecurityGroups"] else [])
      match compare_attrs inst asg_launch_config with
      | Except.error e => Except.error e
      | Except.ok attr_changes =>
        let instance_iam_profile := pyStrOr inst.iam_instance_profile
        let config_iam_profile := pyStrOr asg_launch_config.iamInstanceProfile
        Except.ok (change_list_head ++ attr_changes ++
          (if instance_iam_profile ≠ config_iam_profile
           then ["IamInstanceProfile"] else []))

/-- One entry of the Attachments list of an EBS volume description. -/
structure VolumeAttachment where
  device : String
  deleteOnTermination : Bool
deriving DecidableEq, Repr

/-- One value of the instance volumes dict (`describe_volumes` output):
`VolumeType`, `Size` and the `Attachments` list. -/
structure InstanceVolume where
  volumeType : String
  size : Int
  attachments : List VolumeAttachment
deriving DecidableEq, Repr

/-- The `Ebs` part of one launch-config block-device mapping. -/
structure EbsConfig where
  volumeType : String
  volumeSize : Int
  deleteOnTermination : Bool
deriving DecidableEq, Repr

/-- The symmetric difference of two key sets
(`set(keys1) ^ set(keys2)`), represented as a list. -/
def symmDiffKeys (a b : List String) : List String :=
  a.filter (fun k => decide (k ∉ b)) ++ b.filter (fun k => decide (k ∉ a))

/-- The per-device attribute loop of `compare_volumes_config`
(src/script.py lines 479-497): for each instance device, compare
`VolumeType`, `Size` and the first attachments `DeleteOnTermination`
flag against the config `Ebs` record.  A device missing from the config
dict raises `KeyError`; an empty `Attachments` list raises (IndexError,
folded into `keyError` here). -/
def compare_volume_attrs (instance_volumes_dict : List (String × InstanceVolume))
    (config_volumes_dict : List (String × EbsConfig)) : Except PyError (List String) :=
  match instance_volumes_dict with
  | [] => Except.ok []
  | (device_name, instance_volume) :: rest =>
    match config_volumes_dict.lookup device_name with
    | none => Except.error (PyError.keyError device_name)
    | some config_volume =>
      match instance_volume.attachments with
      | [] => Except.error (PyError.keyError "Attachments")
      | attachment0 :: _ =>
        let l1 := if instance_volume.volumeType ≠ config_volume.volumeType
                  then [device_name ++ ".BlockDeviceMappings.Ebs.VolumeType"] else []
        let l2 := if instance_volume.size ≠ config_volume.volumeSize
                  then [device_name ++ ".BlockDeviceMappings.Ebs.Size"] else []
        let l3 := if attachment0.deleteOnTermination ≠ config_volume.deleteOnTermination
                  then [device_name ++ ".BlockDeviceMappings.Ebs.DeleteOnTermination"] else []
        match compare_volume_attrs rest config_volumes_dict with
        | Except.error e => Except.error e
        | Except.ok tail => Except.ok (l1 ++ l2 ++ l3 ++ tail)

/-- The method `InstanceConfigComparator.compare_volumes_config` (src/script.py
lines 442-497).  Dicts are modelled as association lists whose order is
the dict iteration order and whose keys are unique. -/
def compare_volumes_config (instance_volumes_dict : List (String × InstanceVolume))
    (config_volumes_dict : List (String × EbsConfig)) : Except PyError (List String) :=
  if config_volumes_dict.length = 0 ∧ instance_volumes_dict.length = 1 then
    Except.ok []
  else
    let device_name_differences :=
      symmDiffKeys (instance_volumes_dict.map Prod.fst)
        (config_volumes_dict.map Prod.fst)
    if device_name_differences.length ≠ 0 then
      Except.ok ((sortStr device_name_differences).map
        (fun dev => "DeviceName:" ++ dev))
    else
      compare_volume_attrs instance_volumes_dict config_volumes_dict

/-- An instance as seen by `RollingUpgradeManager.get_oldest_instance`:
only `id` and `launch_time` matter, the launch time being a timestamp
used for ordering. -/
structure AsgInstance where
  id : String
  launch_time : Nat
deriving DecidableEq, Repr

/-- The sort key relation `lambda instance: instance.launch_time` of
`get_oldest_instance`. -/
def launchTimeLe (a b : AsgInstance) : Prop := a.launch_time ≤ b.launch_time

instance : DecidableRel launchTimeLe :=
  fun a b => Nat.decLe a.launch_time b.launch_time

instance : IsTotal AsgInstance launchTimeLe :=
  ⟨fun a b => Nat.le_total a.launch_time b.launch_time⟩

instance : IsTrans AsgInstance launchTimeLe := ⟨fun _ _ _ => Nat.le_trans⟩

/-- The method `RollingUpgradeManager.get_oldest_instance` (src/script.py lines
504-512): `sorted(instances, key=lambda instance: instance.launch_time)[0]`.
Python `sorted` is stable, as is `List.insertionSort`; indexing `[0]` of
an empty list raises, modelled by `Option`. -/
def get_oldest_instance (instances : List AsgInstance) : Option AsgInstance :=
  (List.insertionSort launchTimeLe instances).head?

/-- The environment an `is_ready` probe runs against: whether the SSH
connect raises, whether `exec_command` or reading the exit status
raises, and otherwise the exit status of
`ls /var/lib/cloud/instance/boot-finished`. -/
structure SshEnv where
  connect_raises : Bool
  exec_raises : Bool
  exit_code : Int
deriving DecidableEq, Repr

/-- The mutable state of an `InstanceSshManager`: the `_connected` flag,
plus a counter of `close_connections` calls used to state that the
session is closed on every exit path. -/
structure SshState where
  connected : Bool
  close_count : Nat
deriving DecidableEq, Repr

/-- The method `InstanceSshManager.close_connections` (src/script.py lines
319-322): closes the SSH client and clears `_connected`. -/
def close_connections (st : SshState) : SshState :=
  { connected := false, close_count := st.close_count + 1 }

/-- The method `InstanceSshManager.connect` (src/script.py lines 268-279): raises
`IOError` when already connected, raises when the underlying SSH connect
fails, and otherwise sets `_connected`. -/
def ssh_connect (env : SshEnv) (st : SshState) : Except Unit SshState :=
  if st.connected then Except.error ()
  else if env.connect_raises then Except.error ()
  else Except.ok { st with connected := true }

/-- The method `InstanceSshManager.is_ready` (src/script.py lines 289-317):
`try` connect and run the boot-marker check, returning whether the exit
status is zero; a bare `except` turns any exception into `false`; a
`finally` always runs `close_connections`. -/
def is_ready (env : SshEnv) (st : SshState) : Except Unit Bool × SshState :=
  let try_body : Except Unit Bool × SshState :=
    match ssh_connect env st with
    | Except.error _ => (Except.error (), st)
    | Except.ok st1 =>
      if env.exec_raises then (Except.error (), st1)
      else (Except.ok (env.exit_code == 0), st1)
  let caught : Except Unit Bool :=
    match try_body.1 with
    | Except.ok b => Except.ok b
    | Except.error _ => Except.ok false
  (caught, close_connections try_body.2)

/-- Exceptions the terminate call can surface: a Boto `ClientError`
carrying an error code, or any other exception. -/
inductive AwsException where
  | clientError (code : String)
  | otherException (msg : String)
deriving DecidableEq, Repr

/-- Whether `needle` occurs contiguously inside `hay`. -/
def charListInfix (needle : List Char) : List Char → Bool
  | [] => needle.isEmpty
  | c :: t => needle.isPrefixOf (c :: t) || charListInfix needle t

/-- Python substring test `needle in hay`. -/
def strContains (hay needle : String) : Bool :=
  charListInfix needle.data hay.data

/-- The method `AwsManager.terminate_instance` (src/script.py lines 122-141): the
API call is submitted with `DryRun` set from the managers dry-run flag;
a `ClientError` whose code contains `DryRunOperation` is swallowed, any
other `ClientError` is re-raised, and non-`ClientError` exceptions
propagate uncaught.  The provider response is a function of the
submitted dry-run flag. -/
def terminate_instance (do_dry_run : Bool)
    (api_response : Bool → Except AwsException Unit) : Except AwsException Unit :=
  match api_response do_dry_run with
  | Except.ok _ => Except.ok ()
  | Except.error (AwsException.clientError code) =>
      if strContains code "DryRunOperation" then Except.ok ()
      else Except.error (AwsException.clientError code)
  | Except.error (AwsException.otherException m) =>
      Except.error (AwsException.otherException m)

example :
    compare_to_config
      { security_groups := [⟨"sg-2"⟩, ⟨"sg-1"⟩],
        image_id := some (some "ami-1"), instance_type := some (some "t2.micro"),
        kernel_id := some (some "k"), key_name := some (some "key"),
        iam_instance_profile := some none }
      { userData := some "A", securityGroups := some ["sg-1", "sg-2"],
        imageId := some (some ""), instanceType := some (some "t2.micro"),
        kernelId := some (some "k"), keyName := some (some "key"),
        iamInstanceProfile := none }
      "B" = Except.ok ["UserData"] := by rfl

/-- The four required (instance-attribute, launch-config-key) pairs, in
the order `compare_to_config` checks them. -/
inductive ReqField where
  | fImageId
  | fInstanceType
  | fKernelId
  | fKeyName
deriving DecidableEq, Repr

/-- The Python instance attribute name of a required field. -/
def ReqField.instAttrName : ReqField → String
  | .fImageId => "image_id"
  | .fInstanceType => "instance_type"
  | .fKernelId => "kernel_id"
  | .fKeyName => "key_name"

/-- The launch-config key (and diff tag) of a required field. -/
def ReqField.configKey : ReqField → String
  | .fImageId => "ImageId"
  | .fInstanceType => "InstanceType"
  | .fKernelId => "KernelId"
  | .fKeyName => "KeyName"

/-- The instance attribute value of a required field. -/
def ReqField.instVal (f : ReqField) (inst : Ec2Instance) : Option (Option String) :=
  match f with
  | .fImageId => inst.image_id
  | .fInstanceType => inst.instance_type
  | .fKernelId => inst.kernel_id
  | .fKeyName => inst.key_name

/-- The launch-config value of a required field. -/
def ReqField.cfgVal (f : ReqField) (cfg : LaunchConfig) : Option (Option String) :=
  match f with
  | .fImageId => cfg.imageId
  | .fInstanceType => cfg.instanceType
  | .fKernelId => cfg.kernelId
  | .fKeyName => cfg.keyName

/-- Position of a required field in the check order. -/
def ReqField.idx : ReqField → Nat
  | .fImageId => 0
  | .fInstanceType => 1
  | .fKernelId => 2
  | .fKeyName => 3

/-- The instance with the attribute of one required field replaced,
used to state claims uniformly over the four attributes. -/
def ReqField.setInstVal (f : ReqField) (inst : Ec2Instance)
    (v : Option (Option String)) : Ec2Instance :=
  match f with
  | .fImageId => { inst with image_id := v }
  | .fInstanceType => { inst with instance_type := v }
  | .fKernelId => { inst with kernel_id := v }
  | .fKeyName => { inst with key_name := v }

theorem getattrOpt_image_id (inst : Ec2Instance) :
    getattrOpt inst "image_id" = inst.image_id := rfl

theorem getattrOpt_instance_type (inst : Ec2Instance) :
    getattrOpt inst "instance_type" = inst.instance_type := rfl

theorem getattrOpt_kernel_id (inst : Ec2Instance) :
    getattrOpt inst "kernel_id" = inst.kernel_id := rfl

theorem getattrOpt_key_name (inst : Ec2Instance) :
    getattrOpt inst "key_name" = inst.key_name := rfl

theorem configGet_ImageId (cfg : LaunchConfig) :
    configGet cfg "ImageId" = cfg.imageId := rfl

theorem configGet_InstanceType (cfg : LaunchConfig) :
    configGet cfg "InstanceType" = cfg.instanceType := rfl

theorem configGet_KernelId (cfg : LaunchConfig) :
    configGet cfg "KernelId" = cfg.kernelId := rfl

theorem configGet_KeyName (cfg : LaunchConfig) :
    configGet cfg "KeyName" = cfg.keyName := rfl

theorem getattrOpt_req (f : ReqField) (inst : Ec2Instance) :
    getattrOpt inst f.instAttrName = f.instVal inst := by
  cases f <;> rfl

theorem configGet_req (f : ReqField) (cfg : LaunchConfig) :
    configGet cfg f.configKey = f.cfgVal cfg := by
  cases f <;> rfl

/-- The tag list one `check_attr` call contributes when both sides are
present. -/
def attrTag (iv cv : Option String) (key : String) : List String :=
  if cv.getD "" ≠ "" ∧ iv.getD "" ≠ cv.getD "" then [key] else []

theorem check_attr_present (f : ReqField) (inst : Ec2Instance)
    (cfg : LaunchConfig) (iv cv : Option String)
    (hi : f.instVal inst = some iv) (hc : f.cfgVal cfg = some cv) :
    check_attr inst cfg f.instAttrName f.configKey
      = Except.ok (attrTag iv cv f.configKey) := by
  rw [check_attr, getattrOpt_req, configGet_req, hi, hc]
  rfl

theorem check_attr_inst_absent (f : ReqField) (inst : Ec2Instance)
    (cfg : LaunchConfig) (hi : f.instVal inst = none) :
    check_attr inst cfg f.instAttrName f.configKey
      = Except.error (PyError.attributeError
          ("object has no attribute " ++ f.instAttrName)) := by
  rw [check_attr, getattrOpt_req, hi]

theorem check_attr_cfg_absent (f : ReqField) (inst : Ec2Instance)
    (cfg : LaunchConfig) (iv : Option String)
    (hi : f.instVal inst = some iv) (hc : f.cfgVal cfg = none) :
    check_attr inst cfg f.instAttrName f.configKey
      = Except.error (PyError.attributeError
          ("Launch configuration response was missing required attribute "
            ++ f.configKey)) := by
  rw [check_attr, getattrOpt_req, configGet_req, hi, hc]

/-- When all four instance attributes and config keys are present,
`compare_attrs` returns the concatenation of the four tag lists. -/
theorem compare_attrs_present (inst : Ec2Instance) (cfg : LaunchConfig)
    (i1 i2 i3 i4 c1 c2 c3 c4 : Option String)
    (h1 : inst.image_id = some i1) (h2 : inst.instance_type = some i2)
    (h3 : inst.kernel_id = some i3) (h4 : inst.key_name = some i4)
    (h5 : cfg.imageId = some c1) (h6 : cfg.instanceType = some c2)
    (h7 : cfg.kernelId = some c3) (h8 : cfg.keyName = some c4) :
    compare_attrs inst cfg
      = Except.ok (attrTag i1 c1 "ImageId" ++ attrTag i2 c2 "InstanceType"
          ++ attrTag i3 c3 "KernelId" ++ attrTag i4 c4 "KeyName") := by
  have e1 := check_attr_present ReqField.fImageId inst cfg i1 c1 h1 h5
  have e2 := check_attr_present ReqField.fInstanceType inst cfg i2 c2 h2 h6
  have e3 := check_attr_present ReqField.fKernelId inst cfg i3 c3 h3 h7
  have e4 := check_attr_present ReqField.fKeyName inst cfg i4 c4 h4 h8
  simp only [ReqField.instAttrName, ReqField.configKey] at e1 e2 e3 e4
  rw [compare_attrs, e1, e2, e3, e4]

/-- When all keys are present, `compare_to_config` succeeds and the
result decomposes into the tag lists of the individual comparisons, in
source order. -/
theorem compare_to_config_parts (inst : Ec2Instance) (cfg : LaunchConfig)
    (ud cud : String) (csg : List String)
    (i1 i2 i3 i4 c1 c2 c3 c4 : Option String)
    (hud : cfg.userData = some cud) (hsg : cfg.securityGroups = some csg)
    (h1 : inst.image_id = some i1) (h2 : inst.instance_type = some i2)
    (h3 : inst.kernel_id = some i3) (h4 : inst.key_name = some i4)
    (h5 : cfg.imageId = some c1) (h6 : cfg.instanceType = some c2)
    (h7 : cfg.kernelId = some c3) (h8 : cfg.keyName = some c4) :
    compare_to_config inst cfg ud
      = Except.ok (
          ((if ud ≠ cud then ["UserData"] else []) ++
           (if sortStr (inst.security_groups.map SecurityGroup.groupId)
               ≠ sortStr csg then ["SecurityGroups"] else [])) ++
          (attrTag i1 c1 "ImageId" ++ attrTag i2 c2 "InstanceType"
            ++ attrTag i3 c3 "KernelId" ++ attrTag i4 c4 "KeyName") ++
          (if pyStrOr inst.iam_instance_profile
              ≠ pyStrOr cfg.iamInstanceProfile
           then ["IamInstanceProfile"] else [])) := by
  rw [compare_to_config, hud, hsg,
    compare_attrs_present inst cfg i1 i2 i3 i4 c1 c2 c3 c4 h1 h2 h3 h4 h5 h6 h7 h8]

/-- Membership in a one-element conditional list. -/
theorem mem_ite_singleton {α : Type} (a t : α) (c : Prop) [Decidable c] :
    (a ∈ if c then [t] else []) ↔ c ∧ a = t := by
  by_cases h : c <;> simp [h]

theorem mem_attrTag (a : String) (iv cv : Option String) (key : String) :
    (a ∈ attrTag iv cv key)
      ↔ (cv.getD "" ≠ "" ∧ iv.getD "" ≠ cv.getD "") ∧ a = key := by
  rw [attrTag, mem_ite_singleton]

theorem pyStrOr_some (v : Option String) : pyStrOr (some v) = v.getD "" := by
  cases v <;> rfl

/-- C1: for each of the four required fields, when the UserData and
SecurityGroups keys, all four instance attributes and all four config
keys are present (values possibly empty or None, with None normalised to
the empty string), compare_to_config succeeds and emits that fields
config-key tag iff the config value is non-empty and differs from the
instance value; an empty config value never produces the tag. -/
theorem compare_to_config_required_field_tag
    (f : ReqField) (inst : Ec2Instance) (cfg : LaunchConfig)
    (ud cud : String) (csg : List String)
    (i1 i2 i3 i4 c1 c2 c3 c4 : Option String)
    (hud : cfg.userData = some cud) (hsg : cfg.securityGroups = some csg)
    (h1 : inst.image_id = some i1) (h2 : inst.instance_type = some i2)
    (h3 : inst.kernel_id = some i3) (h4 : inst.key_name = some i4)
    (h5 : cfg.imageId = some c1) (h6 : cfg.instanceType = some c2)
    (h7 : cfg.kernelId = some c3) (h8 : cfg.keyName = some c4) :
    ∃ l, compare_to_config inst cfg ud = Except.ok l ∧
      (f.configKey ∈ l ↔
        pyStrOr (f.cfgVal cfg) ≠ "" ∧
          pyStrOr (f.instVal inst) ≠ pyStrOr (f.cfgVal cfg)) := by
  refine ⟨_, compare_to_config_parts inst cfg ud cud csg i1 i2 i3 i4 c1 c2 c3 c4
    hud hsg h1 h2 h3 h4 h5 h6 h7 h8, ?_⟩
  cases f <;>
    simp only [ReqField.configKey, ReqField.cfgVal, ReqField.instVal,
      h1, h2, h3, h4, h5, h6, h7, h8, pyStrOr_some] <;>
    simp [List.mem_append, mem_attrTag, mem_ite_singleton]

/-- Witness for C1 at a concrete instance and config: the ImageId field. -/
theorem compare_to_config_required_field_tag_witness :
    ∃ l, compare_to_config
        { security_groups := [], image_id := some (some "ami-1"),
          instance_type := some (some "t2.micro"), kernel_id := some none,
          key_name := some (some "key"), iam_instance_profile := none }
        { userData := some "ud", securityGroups := some [],
          imageId := some (some "ami-2"), instanceType := some (some "t2.micro"),
          kernelId := some none, keyName := some (some ""),
          iamInstanceProfile := none }
        "ud" = Except.ok l ∧
      (ReqField.fImageId.configKey ∈ l ↔
        pyStrOr (ReqField.fImageId.cfgVal
            { userData := some "ud", securityGroups := some [],
              imageId := some (some "ami-2"), instanceType := some (some "t2.micro"),
              kernelId := some none, keyName := some (some ""),
              iamInstanceProfile := none }) ≠ "" ∧
          pyStrOr (ReqField.fImageId.instVal
              { security_groups := [], image_id := some (some "ami-1"),
                instance_type := some (some "t2.micro"), kernel_id := some none,
                key_name := some (some "key"), iam_instance_profile := none })
            ≠ pyStrOr (ReqField.fImageId.cfgVal
                { userData := some "ud", securityGroups := some [],
                  imageId := some (some "ami-2"),
                  instanceType := some (some "t2.micro"),
                  kernelId := some none, keyName := some (some ""),
                  iamInstanceProfile := none })) :=
  compare_to_config_required_field_tag ReqField.fImageId _ _ "ud" "ud" []
    _ _ _ _ _ _ _ _ rfl rfl rfl rfl rfl rfl rfl rfl rfl rfl

/-- C2 (amended): the selected victim is an element of the candidate
list with minimal launch_time; on ties the stable sort keeps the
candidate that appears first in the list, so the tie-break is
positional, not on the instance id. -/
theorem get_oldest_instance_min (l : List AsgInstance) (h : l ≠ []) :
    ∃ v, get_oldest_instance l = some v ∧ v ∈ l ∧
      ∀ u ∈ l, v.launch_time ≤ u.launch_time := by
  have hp := List.perm_insertionSort launchTimeLe l
  have hs := List.sorted_insertionSort launchTimeLe l
  cases hsort : List.insertionSort launchTimeLe l with
  | nil =>
    rw [hsort] at hp
    exact absurd hp.nil_eq.symm h
  | cons v rest =>
    rw [hsort] at hp hs
    refine ⟨v, ?_, ?_, ?_⟩
    · rw [get_oldest_instance, hsort]; rfl
    · exact hp.subset (List.mem_cons_self v rest)
    · intro u hu
      rcases List.mem_cons.mp (hp.symm.subset hu) with h' | h'
      · exact h' ▸ Nat.le_refl _
      · exact (List.sorted_cons.mp hs).1 u h'

/-- Witness for C2 (amended): on a concrete two-element list the oldest
instance is returned. -/
theorem get_oldest_instance_min_witness :
    ∃ v, get_oldest_instance [⟨"i-1", 5⟩, ⟨"i-2", 3⟩] = some v ∧
      v ∈ [⟨"i-1", 5⟩, ⟨"i-2", 3⟩] ∧
      ∀ u ∈ [(⟨"i-1", 5⟩ : AsgInstance), ⟨"i-2", 3⟩],
        v.launch_time ≤ u.launch_time :=
  get_oldest_instance_min [⟨"i-1", 5⟩, ⟨"i-2", 3⟩] (by decide)

/-- C2 counterexample: two candidates with equal launch_time. The same
candidate set presented in the two possible orders yields two different
victims, so the tie is broken by list position, not by the instance id. -/
theorem get_oldest_instance_tie_order_dependent :
    get_oldest_instance [⟨"i-bbb", 100⟩, ⟨"i-aaa", 100⟩]
        = some ⟨"i-bbb", 100⟩
    ∧ get_oldest_instance [⟨"i-aaa", 100⟩, ⟨"i-bbb", 100⟩]
        = some ⟨"i-aaa", 100⟩
    ∧ (⟨"i-bbb", 100⟩ : AsgInstance) ≠ ⟨"i-aaa", 100⟩ :=
  ⟨rfl, rfl, by decide⟩

/-- A concrete instance with all four required attributes present,
used by the C3 witness. -/
def instW3 : Ec2Instance :=
  { security_groups := [], image_id := some (some "ami-1"),
    instance_type := some (some "t"), kernel_id := some none,
    key_name := some (some "key"), iam_instance_profile := none }

/-- A concrete launch config with all keys present, used by the C3
witness and counterexample. -/
def cfgW3 : LaunchConfig :=
  { userData := some "ud", securityGroups := some [],
    imageId := some (some "ami-1"), instanceType := some (some "t"),
    kernelId := some none, keyName := some (some "key"),
    iamInstanceProfile := none }

/-- C3 (amended): for each of the four required attributes, an instance
attribute that is present with value None (or empty) is treated as the
empty string and the comparison proceeds identically, but an entirely
absent instance attribute makes compare_to_config raise the getattr
AttributeError instead of proceeding (the checks performed before it
completing, so the raise is the absent-attribute one). -/
theorem compare_to_config_none_attr_as_empty (f : ReqField)
    (inst : Ec2Instance) (cfg : LaunchConfig) (ud cud : String)
    (csg : List String)
    (hud : cfg.userData = some cud) (hsg : cfg.securityGroups = some csg)
    (hinst : ∀ g : ReqField, (g.instVal inst).isSome)
    (hbefore : ∀ g : ReqField, g.idx < f.idx → (g.cfgVal cfg).isSome) :
    (compare_to_config (f.setInstVal inst (some none)) cfg ud
      = compare_to_config (f.setInstVal inst (some (some ""))) cfg ud)
    ∧ (compare_to_config (f.setInstVal inst none) cfg ud
      = Except.error (PyError.attributeError
          ("object has no attribute " ++ f.instAttrName))) := by
  constructor
  · cases f <;> rfl
  · obtain ⟨i1, h1⟩ := Option.isSome_iff_exists.mp (hinst ReqField.fImageId)
    obtain ⟨i2, h2⟩ := Option.isSome_iff_exists.mp (hinst ReqField.fInstanceType)
    obtain ⟨i3, h3⟩ := Option.isSome_iff_exists.mp (hinst ReqField.fKernelId)
    simp only [ReqField.instVal] at h1 h2 h3
    cases f with
    | fImageId =>
      have e := check_attr_inst_absent ReqField.fImageId
        { inst with image_id := none } cfg rfl
      simp only [ReqField.instAttrName, ReqField.configKey] at e ⊢
      simp [ReqField.setInstVal, compare_to_config, hud, hsg, compare_attrs, e]
    | fInstanceType =>
      obtain ⟨c1, hc1⟩ := Option.isSome_iff_exists.mp
        (hbefore ReqField.fImageId (by decide))
      have e1 := check_attr_present ReqField.fImageId
        { inst with instance_type := none } cfg i1 c1 h1 hc1
      have e2 := check_attr_inst_absent ReqField.fInstanceType
        { inst with instance_type := none } cfg rfl
      simp only [ReqField.instAttrName, ReqField.configKey] at e1 e2 ⊢
      simp [ReqField.setInstVal, compare_to_config, hud, hsg, compare_attrs,
        e1, e2]
    | fKernelId =>
      obtain ⟨c1, hc1⟩ := Option.isSome_iff_exists.mp
        (hbefore ReqField.fImageId (by decide))
      obtain ⟨c2, hc2⟩ := Option.isSome_iff_exists.mp
        (hbefore ReqField.fInstanceType (by decide))
      have e1 := check_attr_present ReqField.fImageId
        { inst with kernel_id := none } cfg i1 c1 h1 hc1
      have e2 := check_attr_present ReqField.fInstanceType
        { inst with kernel_id := none } cfg i2 c2 h2 hc2
      have e3 := check_attr_inst_absent ReqField.fKernelId
        { inst with kernel_id := none } cfg rfl
      simp only [ReqField.instAttrName, ReqField.configKey] at e1 e2 e3 ⊢
      simp [ReqField.setInstVal, compare_to_config, hud, hsg, compare_attrs,
        e1, e2, e3]
    | fKeyName =>
      obtain ⟨c1, hc1⟩ := Option.isSome_iff_exists.mp
        (hbefore ReqField.fImageId (by decide))
      obtain ⟨c2, hc2⟩ := Option.isSome_iff_exists.mp
        (hbefore ReqField.fInstanceType (by decide))
      obtain ⟨c3, hc3⟩ := Option.isSome_iff_exists.mp
        (hbefore ReqField.fKernelId (by decide))
      have e1 := check_attr_present ReqField.fImageId
        { inst with key_name := none } cfg i1 c1 h1 hc1
      have e2 := check_attr_present ReqField.fInstanceType
        { inst with key_name := none } cfg i2 c2 h2 hc2
      have e3 := check_attr_present ReqField.fKernelId
        { inst with key_name := none } cfg i3 c3 h3 hc3
      have e4 := check_attr_inst_absent ReqField.fKeyName
        { inst with key_name := none } cfg rfl
      simp only [ReqField.instAttrName, ReqField.configKey] at e1 e2 e3 e4 ⊢
      simp [ReqField.setInstVal, compare_to_config, hud, hsg, compare_attrs,
        e1, e2, e3, e4]

/-- Witness for C3 (amended) at a concrete instance and config, for the
key_name field (the one with the most checks before it). -/
theorem compare_to_config_none_attr_as_empty_witness :
    (compare_to_config (ReqField.fKeyName.setInstVal instW3 (some none))
        cfgW3 "ud"
      = compare_to_config (ReqField.fKeyName.setInstVal instW3 (some (some "")))
        cfgW3 "ud")
    ∧ (compare_to_config (ReqField.fKeyName.setInstVal instW3 none) cfgW3 "ud"
      = Except.error (PyError.attributeError
          ("object has no attribute " ++ ReqField.fKeyName.instAttrName))) :=
  compare_to_config_none_attr_as_empty ReqField.fKeyName instW3 cfgW3
    "ud" "ud" [] rfl rfl
    (fun g => by cases g <;> rfl)
    (fun g _ => by cases g <;> rfl)

/-- C3 counterexample: for each of the four required attributes, an
instance on which that attribute is entirely absent makes
compare_to_config raise AttributeError; it does not treat the attribute
as the empty string and proceed. -/
theorem compare_to_config_absent_attr_raises :
    compare_to_config
      { security_groups := [], image_id := none,
        instance_type := some (some "t"), kernel_id := some none,
        key_name := some (some "key"), iam_instance_profile := none }
      cfgW3 "ud"
      = Except.error
          (PyError.attributeError "object has no attribute image_id")
    ∧ compare_to_config
      { security_groups := [], image_id := some (some "ami-1"),
        instance_type := none, kernel_id := some none,
        key_name := some (some "key"), iam_instance_profile := none }
      cfgW3 "ud"
      = Except.error
          (PyError.attributeError "object has no attribute instance_type")
    ∧ compare_to_config
      { security_groups := [], image_id := some (some "ami-1"),
        instance_type := some (some "t"), kernel_id := none,
        key_name := some (some "key"), iam_instance_profile := none }
      cfgW3 "ud"
      = Except.error
          (PyError.attributeError "object has no attribute kernel_id")
    ∧ compare_to_config
      { security_groups := [], image_id := some (some "ami-1"),
        instance_type := some (some "t"), kernel_id := some none,
        key_name := none, iam_instance_profile := none }
      cfgW3 "ud"
      = Except.error
          (PyError.attributeError "object has no attribute key_name") :=
  ⟨rfl, rfl, rfl, rfl⟩

/-- C4 (amended): terminate_instance swallows a ClientError whose code
contains DryRunOperation regardless of the dry-run flag; every other
ClientError is re-raised and every non-ClientError exception
propagates. -/
theorem terminate_instance_spec (dr : Bool)
    (api : Bool → Except AwsException Unit) :
    (api dr = Except.ok () → terminate_instance dr api = Except.ok ())
    ∧ (∀ code, api dr = Except.error (AwsException.clientError code) →
        ((strContains code "DryRunOperation" = true →
            terminate_instance dr api = Except.ok ())
         ∧ (strContains code "DryRunOperation" = false →
            terminate_instance dr api
              = Except.error (AwsException.clientError code))))
    ∧ (∀ m, api dr = Except.error (AwsException.otherException m) →
        terminate_instance dr api
          = Except.error (AwsException.otherException m)) := by
  refine ⟨?_, ?_, ?_⟩
  · intro h; simp [terminate_instance, h]
  · intro code h
    constructor <;> intro hs <;> simp [terminate_instance, h, hs]
  · intro m h; simp [terminate_instance, h]

/-- Witness for C4 (amended): concrete provider responses for the three
cases, at both values of the dry-run flag. -/
theorem terminate_instance_spec_witness :
    terminate_instance true
        (fun _ => Except.error (AwsException.clientError "DryRunOperation"))
      = Except.ok ()
    ∧ terminate_instance true
        (fun _ => Except.error (AwsException.clientError "AccessDenied"))
      = Except.error (AwsException.clientError "AccessDenied")
    ∧ terminate_instance false
        (fun _ => Except.error (AwsException.otherException "boom"))
      = Except.error (AwsException.otherException "boom") :=
  ⟨((terminate_instance_spec true
      (fun _ => Except.error (AwsException.clientError "DryRunOperation"))).2.1
      "DryRunOperation" rfl).1 rfl,
   ((terminate_instance_spec true
      (fun _ => Except.error (AwsException.clientError "AccessDenied"))).2.1
      "AccessDenied" rfl).2 rfl,
   (terminate_instance_spec false
      (fun _ => Except.error (AwsException.otherException "boom"))).2.2
      "boom" rfl⟩

/-- C4 counterexample: with the dry-run flag NOT set, a provider
ClientError carrying the DryRunOperation code is still swallowed -
terminate_instance completes without raising instead of propagating
the error as the claim requires. -/
theorem terminate_instance_swallows_marker_without_flag :
    terminate_instance false
      (fun _ => Except.error (AwsException.clientError "DryRunOperation"))
      = Except.ok () := by
  rfl

/-- C5: is_ready never raises and returns a boolean that is true iff
the probe connects from a fresh state, the remote boot-marker check
raises nothing and exits with status 0; any connection error, exception
or non-zero exit yields false; and close_connections runs exactly once
on every exit path, leaving the session closed. -/
theorem is_ready_spec (env : SshEnv) (st : SshState) :
    (is_ready env st).1
      = Except.ok (!st.connected && !env.connect_raises && !env.exec_raises
          && (env.exit_code == 0))
    ∧ (is_ready env st).2.connected = false
    ∧ (is_ready env st).2.close_count = st.close_count + 1 := by
  cases hc : st.connected <;> cases hcr : env.connect_raises <;>
    cases her : env.exec_raises <;>
    simp [is_ready, ssh_connect, close_connections, hc, hcr, her]

/-- C6: when one of the four required launch-config keys is absent (the
keys checked before it being present, and the instance attributes
present so the comparison reaches the config lookup), compare_to_config
raises the attribute-missing AttributeError naming that key rather than
reporting the field in the returned diff list. -/
theorem compare_to_config_missing_config_key (f : ReqField)
    (inst : Ec2Instance) (cfg : LaunchConfig) (ud cud : String)
    (csg : List String)
    (hud : cfg.userData = some cud) (hsg : cfg.securityGroups = some csg)
    (hinst : ∀ g : ReqField, (g.instVal inst).isSome)
    (habsent : f.cfgVal cfg = none)
    (hbefore : ∀ g : ReqField, g.idx < f.idx → (g.cfgVal cfg).isSome) :
    compare_to_config inst cfg ud
      = Except.error (PyError.attributeError
          ("Launch configuration response was missing required attribute "
            ++ f.configKey)) := by
  obtain ⟨i1, h1⟩ := Option.isSome_iff_exists.mp (hinst ReqField.fImageId)
  obtain ⟨i2, h2⟩ := Option.isSome_iff_exists.mp (hinst ReqField.fInstanceType)
  obtain ⟨i3, h3⟩ := Option.isSome_iff_exists.mp (hinst ReqField.fKernelId)
  obtain ⟨i4, h4⟩ := Option.isSome_iff_exists.mp (hinst ReqField.fKeyName)
  simp only [ReqField.instVal] at h1 h2 h3 h4
  cases f with
  | fImageId =>
    have e := check_attr_cfg_absent ReqField.fImageId inst cfg i1 h1 habsent
    simp only [ReqField.instAttrName, ReqField.configKey] at e ⊢
    simp [compare_to_config, hud, hsg, compare_attrs, e]
  | fInstanceType =>
    obtain ⟨c1, hc1⟩ := Option.isSome_iff_exists.mp
      (hbefore ReqField.fImageId (by decide))
    have e1 := check_attr_present ReqField.fImageId inst cfg i1 c1 h1 hc1
    have e2 := check_attr_cfg_absent ReqField.fInstanceType inst cfg i2 h2 habsent
    simp only [ReqField.instAttrName, ReqField.configKey] at e1 e2 ⊢
    simp [compare_to_config, hud, hsg, compare_attrs, e1, e2]
  | fKernelId =>
    obtain ⟨c1, hc1⟩ := Option.isSome_iff_exists.mp
      (hbefore ReqField.fImageId (by decide))
    obtain ⟨c2, hc2⟩ := Option.isSome_iff_exists.mp
      (hbefore ReqField.fInstanceType (by decide))
    have e1 := check_attr_present ReqField.fImageId inst cfg i1 c1 h1 hc1
    have e2 := check_attr_present ReqField.fInstanceType inst cfg i2 c2 h2 hc2
    have e3 := check_attr_cfg_absent ReqField.fKernelId inst cfg i3 h3 habsent
    simp only [ReqField.instAttrName, ReqField.configKey] at e1 e2 e3 ⊢
    simp [compare_to_config, hud, hsg, compare_attrs, e1, e2, e3]
  | fKeyName =>
    obtain ⟨c1, hc1⟩ := Option.isSome_iff_exists.mp
      (hbefore ReqField.fImageId (by decide))
    obtain ⟨c2, hc2⟩ := Option.isSome_iff_exists.mp
      (hbefore ReqField.fInstanceType (by decide))
    obtain ⟨c3, hc3⟩ := Option.isSome_iff_exists.mp
      (hbefore ReqField.fKernelId (by decide))
    have e1 := check_attr_present ReqField.fImageId inst cfg i1 c1 h1 hc1
    have e2 := check_attr_present ReqField.fInstanceType inst cfg i2 c2 h2 hc2
    have e3 := check_attr_present ReqField.fKernelId inst cfg i3 c3 h3 hc3
    have e4 := check_attr_cfg_absent ReqField.fKeyName inst cfg i4 h4 habsent
    simp only [ReqField.instAttrName, ReqField.configKey] at e1 e2 e3 e4 ⊢
    simp [compare_to_config, hud, hsg, compare_attrs, e1, e2, e3, e4]

/-- Witness for C6: a concrete config lacking the KeyName key. -/
theorem compare_to_config_missing_config_key_witness :
    compare_to_config
      { security_groups := [], image_id := some (some "ami-1"),
        instance_type := some (some "t2.micro"), kernel_id := some (some "k"),
        key_name := some (some "key"), iam_instance_profile := none }
      { userData := some "ud", securityGroups := some [],
        imageId := some (some "ami-1"), instanceType := some (some "t2.micro"),
        kernelId := some (some "k"), keyName := none,
        iamInstanceProfile := none }
      "ud"
      = Except.error (PyError.attributeError
          ("Launch configuration response was missing required attribute "
            ++ ReqField.fKeyName.configKey)) :=
  compare_to_config_missing_config_key ReqField.fKeyName
    { security_groups := [], image_id := some (some "ami-1"),
      instance_type := some (some "t2.micro"), kernel_id := some (some "k"),
      key_name := some (some "key"), iam_instance_profile := none }
    { userData := some "ud", securityGroups := some [],
      imageId := some (some "ami-1"), instanceType := some (some "t2.micro"),
      kernelId := some (some "k"), keyName := none,
      iamInstanceProfile := none }
    "ud" "ud" [] rfl rfl (fun g => by cases g <;> rfl) rfl
    (fun g hg => by cases g <;> first | rfl | simp [ReqField.idx] at hg)

/-- C7: when the config volume dict is empty and the instance volume
dict has exactly one entry, compare_volumes_config returns the empty
list regardless of the contents of that volume. -/
theorem compare_volumes_config_empty_config_single
    (instance_volumes_dict : List (String × InstanceVolume))
    (config_volumes_dict : List (String × EbsConfig))
    (hc : config_volumes_dict.length = 0)
    (hi : instance_volumes_dict.length = 1) :
    compare_volumes_config instance_volumes_dict config_volumes_dict
      = Except.ok [] := by
  simp [compare_volumes_config, hc, hi]

/-- Witness for C7: a single instance volume with arbitrary junk content
(empty attachments list included) against an empty config dict. -/
theorem compare_volumes_config_empty_config_single_witness :
    compare_volumes_config
      [("xvdz", { volumeType := "weird", size := -5, attachments := [] })] []
      = Except.ok [] :=
  compare_volumes_config_empty_config_single
    [("xvdz", { volumeType := "weird", size := -5, attachments := [] })] []
    rfl rfl

/-- C8: outside the empty-config/single-volume special case, a
non-empty symmetric difference of the device-name key sets makes
compare_volumes_config return exactly the DeviceName tags of that
symmetric difference in sorted order, with no per-attribute
comparison performed. -/
theorem compare_volumes_config_device_diff
    (instance_volumes_dict : List (String × InstanceVolume))
    (config_volumes_dict : List (String × EbsConfig))
    (hns : ¬ (config_volumes_dict.length = 0
        ∧ instance_volumes_dict.length = 1))
    (hnd : symmDiffKeys (instance_volumes_dict.map Prod.fst)
        (config_volumes_dict.map Prod.fst) ≠ []) :
    compare_volumes_config instance_volumes_dict config_volumes_dict
      = Except.ok ((sortStr (symmDiffKeys (instance_volumes_dict.map Prod.fst)
          (config_volumes_dict.map Prod.fst))).map
            (fun dev => "DeviceName:" ++ dev))
    ∧ (∀ d, d ∈ symmDiffKeys (instance_volumes_dict.map Prod.fst)
          (config_volumes_dict.map Prod.fst) ↔
        ((d ∈ instance_volumes_dict.map Prod.fst
            ∧ d ∉ config_volumes_dict.map Prod.fst)
          ∨ (d ∈ config_volumes_dict.map Prod.fst
            ∧ d ∉ instance_volumes_dict.map Prod.fst)))
    ∧ (sortStr (symmDiffKeys (instance_volumes_dict.map Prod.fst)
        (config_volumes_dict.map Prod.fst))).Perm
        (symmDiffKeys (instance_volumes_dict.map Prod.fst)
          (config_volumes_dict.map Prod.fst))
    ∧ List.Sorted strLeRel
        (sortStr (symmDiffKeys (instance_volumes_dict.map Prod.fst)
          (config_volumes_dict.map Prod.fst))) := by
  refine ⟨?_, ?_, List.perm_insertionSort _ _, List.sorted_insertionSort _ _⟩
  · have hlen : (symmDiffKeys (instance_volumes_dict.map Prod.fst)
        (config_volumes_dict.map Prod.fst)).length ≠ 0 := by
      simpa [List.length_eq_zero] using hnd
    simp only [compare_volumes_config]
    rw [if_neg hns, if_pos hlen]
  · intro d
    simp [symmDiffKeys, List.mem_append, List.mem_filter]

/-- Witness for C8: instance devices sda1, config devices sda1 and
sda2; the diff is the single tag for sda2. -/
theorem compare_volumes_config_device_diff_witness :
    compare_volumes_config
      [("sda1", { volumeType := "gp2", size := 8,
                  attachments := [{ device := "sda1", deleteOnTermination := true }] })]
      [("sda1", { volumeType := "gp2", volumeSize := 8, deleteOnTermination := true }),
       ("sda2", { volumeType := "standard", volumeSize := 16, deleteOnTermination := false })]
      = Except.ok ["DeviceName:sda2"] :=
  (compare_volumes_config_device_diff
      [("sda1", { volumeType := "gp2", size := 8,
                  attachments := [{ device := "sda1", deleteOnTermination := true }] })]
      [("sda1", { volumeType := "gp2", volumeSize := 8, deleteOnTermination := true }),
       ("sda2", { volumeType := "standard", volumeSize := 16, deleteOnTermination := false })]
      (by decide) (by decide)).1.trans (by rfl)

theorem getattrOpt_congr (inst1 inst2 : Ec2Instance) (name : String)
    (h1 : inst1.image_id = inst2.image_id)
    (h2 : inst1.instance_type = inst2.instance_type)
    (h3 : inst1.kernel_id = inst2.kernel_id)
    (h4 : inst1.key_name = inst2.key_name)
    (h5 : inst1.iam_instance_profile = inst2.iam_instance_profile) :
    getattrOpt inst1 name = getattrOpt inst2 name := by
  rw [getattrOpt, getattrOpt, h1, h2, h3, h4, h5]

theorem configGet_congr (cfg1 cfg2 : LaunchConfig) (key : String)
    (h1 : cfg1.imageId = cfg2.imageId)
    (h2 : cfg1.instanceType = cfg2.instanceType)
    (h3 : cfg1.kernelId = cfg2.kernelId)
    (h4 : cfg1.keyName = cfg2.keyName) :
    configGet cfg1 key = configGet cfg2 key := by
  rw [configGet, configGet, h1, h2, h3, h4]

theorem check_attr_congr (inst1 inst2 : Ec2Instance) (cfg1 cfg2 : LaunchConfig)
    (iname cname : String)
    (h1 : inst1.image_id = inst2.image_id)
    (h2 : inst1.instance_type = inst2.instance_type)
    (h3 : inst1.kernel_id = inst2.kernel_id)
    (h4 : inst1.key_name = inst2.key_name)
    (h5 : inst1.iam_instance_profile = inst2.iam_instance_profile)
    (g1 : cfg1.imageId = cfg2.imageId)
    (g2 : cfg1.instanceType = cfg2.instanceType)
    (g3 : cfg1.kernelId = cfg2.kernelId)
    (g4 : cfg1.keyName = cfg2.keyName) :
    check_attr inst1 cfg1 iname cname = check_attr inst2 cfg2 iname cname := by
  rw [check_attr, check_attr, getattrOpt_congr inst1 inst2 iname h1 h2 h3 h4 h5,
    configGet_congr cfg1 cfg2 cname g1 g2 g3 g4]

theorem compare_attrs_congr (inst1 inst2 : Ec2Instance) (cfg1 cfg2 : LaunchConfig)
    (h1 : inst1.image_id = inst2.image_id)
    (h2 : inst1.instance_type = inst2.instance_type)
    (h3 : inst1.kernel_id = inst2.kernel_id)
    (h4 : inst1.key_name = inst2.key_name)
    (h5 : inst1.iam_instance_profile = inst2.iam_instance_profile)
    (g1 : cfg1.imageId = cfg2.imageId)
    (g2 : cfg1.instanceType = cfg2.instanceType)
    (g3 : cfg1.kernelId = cfg2.kernelId)
    (g4 : cfg1.keyName = cfg2.keyName) :
    compare_attrs inst1 cfg1 = compare_attrs inst2 cfg2 := by
  rw [compare_attrs, compare_attrs,
    check_attr_congr inst1 inst2 cfg1 cfg2 "image_id" "ImageId"
      h1 h2 h3 h4 h5 g1 g2 g3 g4,
    check_attr_congr inst1 inst2 cfg1 cfg2 "instance_type" "InstanceType"
      h1 h2 h3 h4 h5 g1 g2 g3 g4,
    check_attr_congr inst1 inst2 cfg1 cfg2 "kernel_id" "KernelId"
      h1 h2 h3 h4 h5 g1 g2 g3 g4,
    check_attr_congr inst1 inst2 cfg1 cfg2 "key_name" "KeyName"
      h1 h2 h3 h4 h5 g1 g2 g3 g4]

/-- Congruence: `compare_to_config` only depends on the sorted security-group ids,
the user data, and the individual attribute fields of both sides. -/
theorem compare_to_config_congr (inst1 inst2 : Ec2Instance)
    (cfg1 cfg2 : LaunchConfig) (ud : String)
    (hsg : sortStr (inst1.security_groups.map SecurityGroup.groupId)
        = sortStr (inst2.security_groups.map SecurityGroup.groupId))
    (hud : cfg1.userData = cfg2.userData)
    (hcsg : cfg1.securityGroups.map sortStr = cfg2.securityGroups.map sortStr)
    (h1 : inst1.image_id = inst2.image_id)
    (h2 : inst1.instance_type = inst2.instance_type)
    (h3 : inst1.kernel_id = inst2.kernel_id)
    (h4 : inst1.key_name = inst2.key_name)
    (h5 : inst1.iam_instance_profile = inst2.iam_instance_profile)
    (g1 : cfg1.imageId = cfg2.imageId)
    (g2 : cfg1.instanceType = cfg2.instanceType)
    (g3 : cfg1.kernelId = cfg2.kernelId)
    (g4 : cfg1.keyName = cfg2.keyName)
    (g5 : cfg1.iamInstanceProfile = cfg2.iamInstanceProfile) :
    compare_to_config inst1 cfg1 ud = compare_to_config inst2 cfg2 ud := by
  have hattr := compare_attrs_congr inst1 inst2 cfg1 cfg2 h1 h2 h3 h4 h5 g1 g2 g3 g4
  rw [compare_to_config, compare_to_config, hud, hattr, h5, g5]
  cases hcu : cfg2.userData with
  | none => rfl
  | some cud =>
    cases hc1 : cfg1.securityGroups with
    | none =>
      cases hc2 : cfg2.securityGroups with
      | none => rfl
      | some b => rw [hc1, hc2] at hcsg; simp at hcsg
    | some a =>
      cases hc2 : cfg2.securityGroups with
      | none => rw [hc1, hc2] at hcsg; simp at hcsg
      | some b =>
        rw [hc1, hc2] at hcsg
        have hab : sortStr a = sortStr b := by simpa using hcsg
        simp only [hsg, hab]

theorem check_attr_ok_tags (inst : Ec2Instance) (cfg : LaunchConfig)
    (iname cname : String) (r : List String)
    (h : check_attr inst cfg iname cname = Except.ok r) :
    ∀ t ∈ r, t = cname := by
  rw [check_attr] at h
  cases hg : getattrOpt inst iname with
  | none => rw [hg] at h; exact absurd h (by simp)
  | some iv =>
    rw [hg] at h
    cases hc : configGet cfg cname with
    | none => rw [hc] at h; exact absurd h (by simp)
    | some cv =>
      rw [hc] at h
      have hr := Except.ok.inj h
      intro t ht
      rw [← hr] at ht
      by_cases hcond : cv.getD "" ≠ "" ∧ iv.getD "" ≠ cv.getD ""
      · simpa [hcond] using ht
      · simp [hcond] at ht

theorem compare_attrs_ok_tags (inst : Ec2Instance) (cfg : LaunchConfig)
    (attrs : List String) (h : compare_attrs inst cfg = Except.ok attrs) :
    ∀ t ∈ attrs,
      t = "ImageId" ∨ t = "InstanceType" ∨ t = "KernelId" ∨ t = "KeyName" := by
  rw [compare_attrs] at h
  cases e1 : check_attr inst cfg "image_id" "ImageId" with
  | error e => rw [e1] at h; exact absurd h (by simp)
  | ok r1 =>
    rw [e1] at h
    cases e2 : check_attr inst cfg "instance_type" "InstanceType" with
    | error e => rw [e2] at h; exact absurd h (by simp)
    | ok r2 =>
      rw [e2] at h
      cases e3 : check_attr inst cfg "kernel_id" "KernelId" with
      | error e => rw [e3] at h; exact absurd h (by simp)
      | ok r3 =>
        rw [e3] at h
        cases e4 : check_attr inst cfg "key_name" "KeyName" with
        | error e => rw [e4] at h; exact absurd h (by simp)
        | ok r4 =>
          rw [e4] at h
          have hr := Except.ok.inj h
          intro t ht
          rw [← hr] at ht
          rcases List.mem_append.mp ht with ht' | ht4
          · rcases List.mem_append.mp ht' with ht'' | ht3
            · rcases List.mem_append.mp ht'' with ht1 | ht2
              · exact Or.inl (check_attr_ok_tags inst cfg _ _ r1 e1 t ht1)
              · exact Or.inr (Or.inl (check_attr_ok_tags inst cfg _ _ r2 e2 t ht2))
            · exact Or.inr (Or.inr (Or.inl (check_attr_ok_tags inst cfg _ _ r3 e3 t ht3)))
          · exact Or.inr (Or.inr (Or.inr (check_attr_ok_tags inst cfg _ _ r4 e4 t ht4)))

/-- Whenever `compare_to_config` succeeds, its result decomposes into
the user-data tag, the security-groups tag, the required-attribute tags
and the IAM-profile tag, in source order. -/
theorem compare_to_config_ok_shape (inst : Ec2Instance) (cfg : LaunchConfig)
    (ud : String) (l : List String)
    (h : compare_to_config inst cfg ud = Except.ok l) :
    ∃ cud csg attrs, cfg.userData = some cud ∧ cfg.securityGroups = some csg ∧
      compare_attrs inst cfg = Except.ok attrs ∧
      l = ((if ud ≠ cud then ["UserData"] else []) ++
           (if sortStr (inst.security_groups.map SecurityGroup.groupId)
               ≠ sortStr csg then ["SecurityGroups"] else [])) ++
          attrs ++
          (if pyStrOr inst.iam_instance_profile
              ≠ pyStrOr cfg.iamInstanceProfile
           then ["IamInstanceProfile"] else []) := by
  rw [compare_to_config] at h
  cases hcu : cfg.userData with
  | none => rw [hcu] at h; exact absurd h (by simp)
  | some cud =>
    rw [hcu] at h
    cases hcs : cfg.securityGroups with
    | none => rw [hcs] at h; exact absurd h (by simp)
    | some csg =>
      rw [hcs] at h
      cases hca : compare_attrs inst cfg with
      | error e => rw [hca] at h; exact absurd h (by simp)
      | ok attrs =>
        rw [hca] at h
        exact ⟨cud, csg, attrs, rfl, rfl, rfl, (Except.ok.inj h).symm⟩

/-- C9: the diff is order-insensitive in security groups - permuting the
instance security-group list or the config security-group list leaves
the result of compare_to_config unchanged - and whenever the comparison
succeeds, the SecurityGroups tag is in the diff iff the sorted list of
instance group ids differs from the sorted config list. -/
theorem compare_to_config_sg_order_insensitive
    (inst : Ec2Instance) (cfg : LaunchConfig) (ud : String)
    (sgs : List SecurityGroup) (csg csg2 : List String)
    (hI : inst.security_groups.Perm sgs) (hC : csg.Perm csg2) :
    (compare_to_config { inst with security_groups := sgs }
        { cfg with securityGroups := some csg2 } ud
      = compare_to_config inst { cfg with securityGroups := some csg } ud)
    ∧ (∀ l, compare_to_config inst { cfg with securityGroups := some csg } ud
          = Except.ok l →
        ("SecurityGroups" ∈ l ↔
          sortStr (inst.security_groups.map SecurityGroup.groupId)
            ≠ sortStr csg)) := by
  constructor
  · exact compare_to_config_congr
      { inst with security_groups := sgs } inst
      { cfg with securityGroups := some csg2 }
      { cfg with securityGroups := some csg } ud
      (sortStr_eq_of_perm ((hI.map SecurityGroup.groupId).symm))
      rfl
      (by simp [sortStr_eq_of_perm hC.symm])
      rfl rfl rfl rfl rfl rfl rfl rfl rfl rfl
  · intro l hl
    obtain ⟨cud, csg0, attrs, hcu, hcs, hca, hshape⟩ :=
      compare_to_config_ok_shape inst { cfg with securityGroups := some csg } ud l hl
    have hcsg : csg = csg0 := by
      simpa using hcs
    subst hcsg
    have hattrs : "SecurityGroups" ∉ attrs := by
      intro hmem
      rcases compare_attrs_ok_tags inst { cfg with securityGroups := some csg }
        attrs hca "SecurityGroups" hmem with h | h | h | h <;> simp at h
    subst hshape
    simp [List.mem_append, mem_ite_singleton, hattrs]

/-- Witness for C9 at the concrete scenario of spec test S3: instance
groups [sg-2, sg-1] permuted to [sg-1, sg-2], config list [sg-1, sg-2]
permuted to [sg-2, sg-1]. -/
theorem compare_to_config_sg_order_insensitive_witness :
    (compare_to_config
        { ({ security_groups := [⟨"sg-2"⟩, ⟨"sg-1"⟩],
             image_id := some (some "ami-1"), instance_type := some (some "t"),
             kernel_id := some none, key_name := some none,
             iam_instance_profile := none } : Ec2Instance)
          with security_groups := [⟨"sg-1"⟩, ⟨"sg-2"⟩] }
        { ({ userData := some "ud", securityGroups := some ["sg-1", "sg-2"],
             imageId := some (some "ami-1"), instanceType := some (some "t"),
             kernelId := some none, keyName := some none,
             iamInstanceProfile := none } : LaunchConfig)
          with securityGroups := some ["sg-2", "sg-1"] } "ud"
      = compare_to_config
        { security_groups := [⟨"sg-2"⟩, ⟨"sg-1"⟩],
          image_id := some (some "ami-1"), instance_type := some (some "t"),
          kernel_id := some none, key_name := some none,
          iam_instance_profile := none }
        { ({ userData := some "ud", securityGroups := some ["sg-1", "sg-2"],
             imageId := some (some "ami-1"), instanceType := some (some "t"),
             kernelId := some none, keyName := some none,
             iamInstanceProfile := none } : LaunchConfig)
          with securityGroups := some ["sg-1", "sg-2"] } "ud")
    ∧ (∀ l, compare_to_config
          { security_groups := [⟨"sg-2"⟩, ⟨"sg-1"⟩],
            image_id := some (some "ami-1"), instance_type := some (some "t"),
            kernel_id := some none, key_name := some none,
            iam_instance_profile := none }
          { ({ userData := some "ud", securityGroups := some ["sg-1", "sg-2"],
               imageId := some (some "ami-1"), instanceType := some (some "t"),
               kernelId := some none, keyName := some none,
               iamInstanceProfile := none } : LaunchConfig)
            with securityGroups := some ["sg-1", "sg-2"] } "ud"
          = Except.ok l →
        ("SecurityGroups" ∈ l ↔
          sortStr (List.map SecurityGroup.groupId
              [⟨"sg-2"⟩, ⟨"sg-1"⟩])
            ≠ sortStr ["sg-1", "sg-2"])) :=
  compare_to_config_sg_order_insensitive
    { security_groups := [⟨"sg-2"⟩, ⟨"sg-1"⟩],
      image_id := some (some "ami-1"), instance_type := some (some "t"),
      kernel_id := some none, key_name := some none,
      iam_instance_profile := none }
    { userData := some "ud", securityGroups := some ["sg-1", "sg-2"],
      imageId := some (some "ami-1"), instanceType := some (some "t"),
      kernelId := some none, keyName := some none,
      iamInstanceProfile := none }
    "ud" [⟨"sg-1"⟩, ⟨"sg-2"⟩] ["sg-1", "sg-2"] ["sg-2", "sg-1"]
    (by decide) (by decide)

/-- C10: a launch config lacking the UserData key makes
compare_to_config raise a raw KeyError naming UserData; with UserData
present but SecurityGroups absent it raises a raw KeyError naming
SecurityGroups; and a KeyError is never the attribute-missing
AttributeError reserved for the four required fields. -/
theorem compare_to_config_missing_userdata_sg_keys
    (inst : Ec2Instance) (cfg : LaunchConfig) (ud : String) :
    (cfg.userData = none →
      compare_to_config inst cfg ud
        = Except.error (PyError.keyError "UserData"))
    ∧ (∀ v, cfg.userData = some v → cfg.securityGroups = none →
      compare_to_config inst cfg ud
        = Except.error (PyError.keyError "SecurityGroups"))
    ∧ (∀ k m, PyError.keyError k ≠ PyError.attributeError m) := by
  refine ⟨?_, ?_, ?_⟩
  · intro h; simp [compare_to_config, h]
  · intro v h1 h2; simp [compare_to_config, h1, h2]
  · intro k m h; exact PyError.noConfusion h

/-- Witness for C10 at concrete configs missing the two keys. -/
theorem compare_to_config_missing_userdata_sg_keys_witness :
    compare_to_config
      { security_groups := [], image_id := some (some "a"),
        instance_type := some (some "t"), kernel_id := some none,
        key_name := some none, iam_instance_profile := none }
      { userData := none, securityGroups := some [],
        imageId := some (some "a"), instanceType := some (some "t"),
        kernelId := some none, keyName := some none,
        iamInstanceProfile := none } "ud"
      = Except.error (PyError.keyError "UserData")
    ∧ compare_to_config
      { security_groups := [], image_id := some (some "a"),
        instance_type := some (some "t"), kernel_id := some none,
        key_name := some none, iam_instance_profile := none }
      { userData := some "ud", securityGroups := none,
        imageId := some (some "a"), instanceType := some (some "t"),
        kernelId := some none, keyName := some none,
        iamInstanceProfile := none } "ud"
      = Except.error (PyError.keyError "SecurityGroups")
    ∧ PyError.keyError "UserData" ≠ PyError.attributeError "UserData" :=
  ⟨(compare_to_config_missing_userdata_sg_keys
      { security_groups := [], image_id := some (some "a"),
        instance_type := some (some "t"), kernel_id := some none,
        key_name := some none, iam_instance_profile := none }
      { userData := none, securityGroups := some [],
        imageId := some (some "a"), instanceType := some (some "t"),
        kernelId := some none, keyName := some none,
        iamInstanceProfile := none } "ud").1 rfl,
   (compare_to_config_missing_userdata_sg_keys
      { security_groups := [], image_id := some (some "a"),
        instance_type := some (some "t"), kernel_id := some none,
        key_name := some none, iam_instance_profile := none }
      { userData := some "ud", securityGroups := none,
        imageId := some (some "a"), instanceType := some (some "t"),
        kernelId := some none, keyName := some none,
        iamInstanceProfile := none } "ud").2.1 "ud" rfl rfl,
   (compare_to_config_missing_userdata_sg_keys
      { security_groups := [], image_id := some (some "a"),
        instance_type := some (some "t"), kernel_id := some none,
        key_name := some none, iam_instance_profile := none }
      { userData := some "ud", securityGroups := none,
        imageId := some (some "a"), instanceType := some (some "t"),
        kernelId := some none, keyName := some none,
        iamInstanceProfile := none } "ud").2.2 "UserData" "UserData"⟩
